import Mathlib

/-!
Shallow embedding of `src/diray/api_client.py` (class `SystemeCalculClient`).

The network is abstracted as an `HttpOutcome`: what the underlying
`requests.request` call does for one invocation (a response with a status
and a body, a timeout, a connection error, or another request exception).
Every function below is a direct translation of the corresponding Python
method; JSON bodies are modelled as association lists of string keys to
JSON values.  Python exceptions are modelled with `Except`: a function
which can raise `SystemeCalculAPIError` past its own boundary returns
`Except ApiError _`, and a `try/except SystemeCalculAPIError` block is a
`match` on the inner `Except` value.
-/

/-- A JSON value, as produced by `response.json()`. -/
inductive JVal where
  | null : JVal
  | bool : Bool → JVal
  | str : String → JVal
  | num : Int → JVal
  | arr : List JVal → JVal
  | obj : List (String × JVal) → JVal

/-- A parsed JSON object body: a Python `dict` from string keys to values.
Top-level response bodies handled by the client are dictionaries (the code
calls `.get` on them); non-object top-level JSON is outside this model. -/
def PBody := List (String × JVal)

/-- Python `d.get(k)`: the value at the key, or `None` when absent. -/
def pyGet (b : PBody) (k : String) : JVal :=
  (List.lookup k b).getD JVal.null

/-- Python `d.get(k, default)`: the value at the key, or the default when
the key is absent (the default is NOT used for a present falsy value). -/
def pyGetD (b : PBody) (k : String) (d : JVal) : JVal :=
  (List.lookup k b).getD d

/-- The client configuration read from Django settings (`__init__`):
`SYSTEME_CALCUL_API_URL`, `SYSTEME_CALCUL_API_KEY`, `SYSTEME_CALCUL_API_TIMEOUT`. -/
structure Config where
  base_url : Option String
  api_key : Option String
  timeout : Nat

/-- Python truthiness of an optional string setting: `None` and `""` are
falsy (`if not self.base_url`, `if not self.api_key`). -/
def truthyOptStr : Option String → Bool
  | none => false
  | some s => !s.isEmpty

/-- `SystemeCalculAPIError(message, status_code, response_data)`.  The
`message` is whatever value was computed for it (for an HTTP error the
body's `error` field, which need not be a string), hence `JVal`. -/
structure ApiError where
  message : JVal
  status_code : Option Nat
  response_data : Option PBody

/-- What the underlying `requests.request` invocation does: deliver an HTTP
response (status code, JSON body when the text parses as a JSON object,
raw text), or raise `Timeout`, `ConnectionError`, or another
`RequestException` carrying a detail string. -/
inductive HttpOutcome where
  | response : Nat → Option PBody → String → HttpOutcome
  | timeout : HttpOutcome
  | connectionError : HttpOutcome
  | requestException : String → HttpOutcome

/-- Remove every trailing slash from a character list
(Python `s.rstrip("/")`). -/
def rstripSlash (s : List Char) : List Char :=
  (s.reverse.dropWhile (fun c => c == '/')).reverse

/-- Remove every leading slash from a character list
(Python `s.lstrip("/")`). -/
def lstripSlash (s : List Char) : List Char :=
  s.dropWhile (fun c => c == '/')

/-- Line 87: the f-string join of base URL and endpoint with exactly one
slash at the joint. -/
def make_url (base endpoint : String) : String :=
  String.mk (rstripSlash base.data ++ '/' :: lstripSlash endpoint.data)

/-- Lines 89-95: request headers, with a bearer token when `token` is
truthy. -/
def make_headers (token : Option String) : List (String × String) :=
  let base := [("Content-Type", "application/json"),
               ("Accept", "application/json")]
  match token with
  | none => base
  | some t => if t.isEmpty then base
              else base ++ [("Authorization", "Bearer " ++ t)]

/-- Lines 107-111: `response.json()`, falling back to a raw-text envelope
when the body does not parse as JSON. -/
def parse_body (body : Option PBody) (text : String) : PBody :=
  match body with
  | some b => b
  | none => [("raw", JVal.str text)]

/-- `requests.Response.ok`: true unless `raise_for_status` raises, i.e.
unless the status code lies in 400..599. -/
def respOk (status : Nat) : Bool :=
  !(400 ≤ status && status < 600)

/-- `SystemeCalculClient._make_request` (lines 60-129).  Raises (returns
`Except.error`) a `SystemeCalculAPIError` on missing base URL, on any
transport fault, and on a non-ok HTTP status; otherwise returns the parsed
body.  `method`, `endpoint`, `data` and `token` are carried for
faithfulness of the request construction (`url`, `headers`); the response
delivered for this invocation is the abstract `outcome`. -/
def make_request (cfg : Config) (method endpoint : String) (data : Option PBody)
    (token : Option String) (outcome : HttpOutcome) : Except ApiError PBody :=
  if truthyOptStr cfg.base_url = false then
    Except.error ⟨JVal.str "API URL not configured", none, none⟩
  else
    let _url := make_url (cfg.base_url.getD "") endpoint
    let _headers := make_headers token
    let _ := method
    let _ := data
    match outcome with
    | HttpOutcome.timeout =>
        Except.error ⟨JVal.str "Request timeout - API server not responding", none, none⟩
    | HttpOutcome.connectionError =>
        Except.error ⟨JVal.str "Connection error - Cannot reach API server", none, none⟩
    | HttpOutcome.requestException d =>
        Except.error ⟨JVal.str ("Request failed: " ++ d), none, none⟩
    | HttpOutcome.response status body text =>
        let response_data := parse_body body text
        if respOk status then
          Except.ok response_data
        else
          Except.error ⟨pyGetD response_data "error" (JVal.str ("HTTP " ++ toString status)),
                        some status, some response_data⟩

/-- The process-wide Django cache used by `get_student_profile`, together
with the current time: each entry is a key, its expiry instant, and the
stored payload.  A `cache.set` shadows older entries for the same key. -/
structure CacheState where
  entries : List (String × Nat × PBody)
  now : Nat

/-- Django `cache.get(key)`: the stored value when an entry for the key
exists and has not expired, else `None`. -/
def cache_get (st : CacheState) (k : String) : Option PBody :=
  match List.lookup k st.entries with
  | some (exp, v) => if st.now < exp then some v else none
  | none => none

/-- Django `cache.set(key, value, ttl)`: store the value, expiring `ttl`
seconds from now. -/
def cache_set (st : CacheState) (k : String) (v : PBody) (ttl : Nat) : CacheState :=
  { st with entries := (k, st.now + ttl, v) :: st.entries }

/-- Line 190, `if cached_data:`—the cached body taken as a hit.  Python
truthiness makes both a cache miss (`None`) and a cached EMPTY dict fall
through to a fresh fetch. -/
def profile_cache_hit (st : CacheState) (ck : String) : Option PBody :=
  match cache_get st ck with
  | some b => if b.isEmpty then none else some b
  | none => none

/-- `SystemeCalculClient.authenticate_student` (lines 131-175).  Returns
the result dictionary paired with the number of `_make_request`
invocations made.  The `try/except SystemeCalculAPIError` converts every
failure of the transport step into an error dictionary. -/
def authenticate_student (cfg : Config) (email password : String)
    (outcome : HttpOutcome) : Except ApiError PBody × Nat :=
  if truthyOptStr cfg.api_key = false then
    (Except.ok [("success", JVal.bool false),
                ("error", JVal.str "API key not configured")], 0)
  else
    match make_request cfg "POST" "/auth/external-login"
        (some [("email", JVal.str email), ("password", JVal.str password),
               ("app_key", JVal.str (cfg.api_key.getD ""))]) none outcome with
    | Except.ok response =>
        (Except.ok [("success", JVal.bool true),
                    ("student", pyGet response "student"),
                    ("token", pyGet response "token"),
                    ("expires_in", pyGetD response "expiresIn" (JVal.str "24h"))], 1)
    | Except.error e =>
        (Except.ok [("success", JVal.bool false), ("error", e.message)], 1)

/-- The fresh-fetch path of `get_student_profile` (lines 193-210): call
the transport, cache the response for 300 seconds on success, convert a
failure into an error dictionary without touching the cache. -/
def profile_fetch (cfg : Config) (token : String) (outcome : HttpOutcome)
    (st : CacheState) : Except ApiError PBody × CacheState × Nat :=
  match make_request cfg "GET" "/students/me/profile" none (some token) outcome with
  | Except.ok response =>
      (Except.ok response,
       cache_set st ("student_profile_" ++ token.take 20) response 300, 1)
  | Except.error e =>
      (Except.ok [("success", JVal.bool false), ("error", e.message)], st, 1)

/-- `SystemeCalculClient.get_student_profile` (lines 177-210).  Returns
the result, the cache state afterwards, and the number of `_make_request`
invocations made. -/
def get_student_profile (cfg : Config) (token : String) (outcome : HttpOutcome)
    (st : CacheState) : Except ApiError PBody × CacheState × Nat :=
  match profile_cache_hit st ("student_profile_" ++ token.take 20) with
  | some cached_data => (Except.ok cached_data, st, 0)
  | none => profile_fetch cfg token outcome st

/-- `SystemeCalculClient.get_student_formations` (lines 212-232). -/
def get_student_formations (cfg : Config) (student_id : Int) (token : String)
    (outcome : HttpOutcome) : Except ApiError PBody :=
  match make_request cfg "GET" ("/students/" ++ toString student_id ++ "/formations")
      none (some token) outcome with
  | Except.ok response => Except.ok response
  | Except.error e =>
      Except.ok [("success", JVal.bool false), ("error", e.message),
                 ("formations", JVal.arr [])]

/-- `SystemeCalculClient.get_student_schedule` (lines 234-254). -/
def get_student_schedule (cfg : Config) (student_id : Int) (token : String)
    (outcome : HttpOutcome) : Except ApiError PBody :=
  match make_request cfg "GET" ("/students/" ++ toString student_id ++ "/schedule")
      none (some token) outcome with
  | Except.ok response => Except.ok response
  | Except.error e =>
      Except.ok [("success", JVal.bool false), ("error", e.message),
                 ("schedule", JVal.arr [])]

/-- `SystemeCalculClient.verify_token` (lines 256-274): `True` iff the
transport call succeeds; every `SystemeCalculAPIError` is caught. -/
def verify_token (cfg : Config) (token : String) (outcome : HttpOutcome) :
    Except ApiError Bool :=
  match make_request cfg "GET" "/auth/me" none (some token) outcome with
  | Except.ok _ => Except.ok true
  | Except.error _ => Except.ok false

/-- `SystemeCalculClient.refresh_token` (lines 276-295): the `token` field
of the response (`response.get("token")`, `None` when absent) on success,
`None` on any caught failure. -/
def refresh_token (cfg : Config) (token : String) (outcome : HttpOutcome) :
    Except ApiError (Option JVal) :=
  match make_request cfg "POST" "/auth/refresh" none (some token) outcome with
  | Except.ok response => Except.ok (List.lookup "token" response)
  | Except.error _ => Except.ok none

/-- A fully configured client, for concrete instantiations. -/
def cfgFull : Config := ⟨some "https://api.example.com", some "secret-key", 30⟩

/-- A client whose base URL setting is absent. -/
def cfgNoBase : Config := ⟨none, some "secret-key", 30⟩

/-- The empty cache at time 0. -/
def emptyCache : CacheState := ⟨[], 0⟩

/-! ## Theorems -/

theorem isOk_authenticate (cfg : Config) (email password : String) (o : HttpOutcome) :
    ((authenticate_student cfg email password o).1).isOk = true := by
  unfold authenticate_student
  split
  · rfl
  · split <;> rfl

theorem isOk_profile (cfg : Config) (token : String) (o : HttpOutcome) (st : CacheState) :
    ((get_student_profile cfg token o st).1).isOk = true := by
  unfold get_student_profile
  split
  · rfl
  · unfold profile_fetch
    split <;> rfl

theorem isOk_formations (cfg : Config) (sid : Int) (token : String) (o : HttpOutcome) :
    (get_student_formations cfg sid token o).isOk = true := by
  unfold get_student_formations
  split <;> rfl

theorem isOk_schedule (cfg : Config) (sid : Int) (token : String) (o : HttpOutcome) :
    (get_student_schedule cfg sid token o).isOk = true := by
  unfold get_student_schedule
  split <;> rfl

theorem isOk_verify (cfg : Config) (token : String) (o : HttpOutcome) :
    (verify_token cfg token o).isOk = true := by
  unfold verify_token
  split <;> rfl

theorem isOk_refresh (cfg : Config) (token : String) (o : HttpOutcome) :
    (refresh_token cfg token o).isOk = true := by
  unfold refresh_token
  split <;> rfl

theorem profile_hit_eq (cfg : Config) (token : String) (o : HttpOutcome) (st : CacheState)
    (b : PBody) (h : profile_cache_hit st ("student_profile_" ++ token.take 20) = some b) :
    get_student_profile cfg token o st = (Except.ok b, st, 0) := by
  unfold get_student_profile
  rw [h]

theorem profile_after_fetch (cfg : Config) (t1 t2 : String) (o1 o2 : HttpOutcome)
    (st : CacheState) (n2 : Nat) (body : PBody)
    (hk : t1.take 20 = t2.take 20)
    (h0 : profile_cache_hit st ("student_profile_" ++ t1.take 20) = none)
    (h1 : make_request cfg "GET" "/students/me/profile" none (some t1) o1 = Except.ok body)
    (hb : body ≠ []) (ht : n2 < st.now + 300) :
    get_student_profile cfg t1 o1 st
      = (Except.ok body, cache_set st ("student_profile_" ++ t1.take 20) body 300, 1)
    ∧ get_student_profile cfg t2 o2
        ⟨(cache_set st ("student_profile_" ++ t1.take 20) body 300).entries, n2⟩
      = (Except.ok body,
         ⟨(cache_set st ("student_profile_" ++ t1.take 20) body 300).entries, n2⟩, 0) := by
  constructor
  · unfold get_student_profile
    rw [h0]
    unfold profile_fetch
    rw [h1]
  · have hhit : profile_cache_hit
        ⟨(cache_set st ("student_profile_" ++ t1.take 20) body 300).entries, n2⟩
        ("student_profile_" ++ t2.take 20) = some body := by
      unfold profile_cache_hit cache_get cache_set
      rw [← hk]
      simp [List.lookup, ht, List.isEmpty_iff, hb]
    unfold get_student_profile
    rw [hhit]

/-- C1 counterexample: with the base URL missing, the
"API URL not configured" `SystemeCalculAPIError` does NOT propagate out of
`verify_token` or `refresh_token` — both catch `SystemeCalculAPIError`,
which is the type that error is raised with, and return their ordinary
failure values. -/
theorem c1_counterexample :
    verify_token cfgNoBase "tok" (HttpOutcome.response 200 (some []) "") = Except.ok false
    ∧ refresh_token cfgNoBase "tok" (HttpOutcome.response 200 (some []) "")
        = Except.ok none := ⟨rfl, rfl⟩

/-- C1 (amended): every failure raised by the transport step — including
the "API URL not configured" configuration error — is caught inside every
one of the six domain operations and converted to an ordinary return
value; no exception propagates past any domain-operation boundary. -/
theorem c1_no_exception_escapes (cfg : Config) (email password token : String)
    (sid : Int) (o : HttpOutcome) (st : CacheState) :
    ((authenticate_student cfg email password o).1).isOk = true
    ∧ ((get_student_profile cfg token o st).1).isOk = true
    ∧ (get_student_formations cfg sid token o).isOk = true
    ∧ (get_student_schedule cfg sid token o).isOk = true
    ∧ (verify_token cfg token o).isOk = true
    ∧ (refresh_token cfg token o).isOk = true :=
  ⟨isOk_authenticate cfg email password o, isOk_profile cfg token o st,
   isOk_formations cfg sid token o, isOk_schedule cfg sid token o,
   isOk_verify cfg token o, isOk_refresh cfg token o⟩

/-- C2 counterexample: a live cache entry holding the EMPTY dictionary (a
value a successful 200-with-body-{} fetch stores) exists for the token,
yet `get_student_profile` does not return it: Python truthiness of
`if cached_data:` treats the empty dict as a miss, so a network call is
issued and the fresh response is returned instead of the cached value. -/
theorem c2_counterexample :
    cache_get ⟨[("student_profile_tok", 100, ([] : PBody))], 50⟩ "student_profile_tok"
      = some []
    ∧ (get_student_profile cfgFull "tok" (HttpOutcome.response 200 (some [("a", JVal.num 1)]) "")
        ⟨[("student_profile_tok", 100, [])], 50⟩).2.2 = 1
    ∧ (get_student_profile cfgFull "tok" (HttpOutcome.response 200 (some [("a", JVal.num 1)]) "")
        ⟨[("student_profile_tok", 100, [])], 50⟩).1
      = Except.ok [("a", JVal.num 1)] :=
  ⟨rfl, rfl, rfl⟩

/-- C2 (amended): for every token whose live cache entry holds a NON-EMPTY
(truthy) value, `get_student_profile` returns the cached value with no
transport call and an unchanged cache; and after a first fetch that
succeeded with a non-empty body, a second call with the same token within
300 seconds makes no further transport call (one call total) and returns
the cached body unchanged, whatever the remote would answer the second
time. -/
theorem c2_cached_profile_reused :
    (∀ (cfg : Config) (token : String) (o : HttpOutcome) (st : CacheState) (b : PBody),
      profile_cache_hit st ("student_profile_" ++ token.take 20) = some b →
      get_student_profile cfg token o st = (Except.ok b, st, 0))
    ∧ (∀ (cfg : Config) (token : String) (o1 o2 : HttpOutcome) (st : CacheState)
        (n2 : Nat) (body : PBody),
      profile_cache_hit st ("student_profile_" ++ token.take 20) = none →
      make_request cfg "GET" "/students/me/profile" none (some token) o1 = Except.ok body →
      body ≠ [] → n2 < st.now + 300 →
      (get_student_profile cfg token o1 st).2.2 = 1
      ∧ get_student_profile cfg token o2
          ⟨((get_student_profile cfg token o1 st).2.1).entries, n2⟩
        = (Except.ok body,
           ⟨((get_student_profile cfg token o1 st).2.1).entries, n2⟩, 0)) := by
  constructor
  · exact fun cfg token o st b h => profile_hit_eq cfg token o st b h
  · intro cfg token o1 o2 st n2 body h0 h1 hb ht
    obtain ⟨e1, e2⟩ := profile_after_fetch cfg token token o1 o2 st n2 body rfl h0 h1 hb ht
    rw [e1]
    exact ⟨rfl, e2⟩

/-- C2 witness: a concrete truthy cache hit is returned with zero
transport calls, and a concrete miss-then-fetch issues one. -/
theorem c2_witness :
    get_student_profile cfgFull "tok" HttpOutcome.timeout
        ⟨[("student_profile_tok", 100, [("p", JVal.num 7)])], 50⟩
      = (Except.ok [("p", JVal.num 7)],
         ⟨[("student_profile_tok", 100, [("p", JVal.num 7)])], 50⟩, 0)
    ∧ (get_student_profile cfgFull "tok"
        (HttpOutcome.response 200 (some [("p", JVal.num 7)]) "") emptyCache).2.2 = 1 := by
  constructor
  · exact c2_cached_profile_reused.1 cfgFull "tok" HttpOutcome.timeout
      ⟨[("student_profile_tok", 100, [("p", JVal.num 7)])], 50⟩ [("p", JVal.num 7)] rfl
  · exact (c2_cached_profile_reused.2 cfgFull "tok"
      (HttpOutcome.response 200 (some [("p", JVal.num 7)]) "") HttpOutcome.timeout
      emptyCache 10 [("p", JVal.num 7)] rfl rfl (List.cons_ne_nil _ _) (by decide)).1

set_option maxRecDepth 10000 in
/-- C10 counterexample: two distinct tokens sharing their first 20
characters, a successful first fetch whose payload is the empty
dictionary: the cached empty dict is falsy, so the second token's call
within the TTL does NOT return the cached payload — it issues a fresh
transport call, contrary to the claim's universal statement. -/
theorem c10_counterexample :
    ("tttttttttttttttttttt" : String) ≠ "ttttttttttttttttttttX"
    ∧ ("tttttttttttttttttttt" : String).take 20 = ("ttttttttttttttttttttX" : String).take 20
    ∧ (get_student_profile cfgFull "tttttttttttttttttttt"
        (HttpOutcome.response 200 (some []) "") emptyCache).1 = Except.ok []
    ∧ (get_student_profile cfgFull "ttttttttttttttttttttX" HttpOutcome.timeout
        ⟨((get_student_profile cfgFull "tttttttttttttttttttt"
            (HttpOutcome.response 200 (some []) "") emptyCache).2.1).entries, 10⟩).2.2
      = 1 :=
  ⟨by decide, by decide, rfl, rfl⟩

/-- C10 (amended): for any two distinct tokens sharing their first 20
characters, after a first call that fetched successfully a NON-EMPTY
payload, a call with the second token within the 300-second TTL returns
the first token's cached payload with no transport call, because the cache
key depends only on the token's first 20 characters. -/
theorem c10_prefix_collision (cfg : Config) (t1 t2 : String) (o1 o2 : HttpOutcome)
    (st : CacheState) (n2 : Nat) (body : PBody)
    (_hne : t1 ≠ t2) (hk : t1.take 20 = t2.take 20)
    (h0 : profile_cache_hit st ("student_profile_" ++ t1.take 20) = none)
    (h1 : make_request cfg "GET" "/students/me/profile" none (some t1) o1 = Except.ok body)
    (hb : body ≠ []) (ht : n2 < st.now + 300) :
    get_student_profile cfg t2 o2
        ⟨((get_student_profile cfg t1 o1 st).2.1).entries, n2⟩
      = (Except.ok body,
         ⟨((get_student_profile cfg t1 o1 st).2.1).entries, n2⟩, 0) := by
  obtain ⟨e1, e2⟩ := profile_after_fetch cfg t1 t2 o1 o2 st n2 body hk h0 h1 hb ht
  rw [e1]
  exact e2

set_option maxRecDepth 10000 in
/-- C10 witness: the concrete prefix collision, with a non-empty payload,
served from the cache with zero transport calls. -/
theorem c10_witness :
    get_student_profile cfgFull "ttttttttttttttttttttX" HttpOutcome.timeout
        ⟨((get_student_profile cfgFull "tttttttttttttttttttt"
            (HttpOutcome.response 200 (some [("p", JVal.num 7)]) "") emptyCache).2.1).entries, 10⟩
      = (Except.ok [("p", JVal.num 7)],
         ⟨((get_student_profile cfgFull "tttttttttttttttttttt"
            (HttpOutcome.response 200 (some [("p", JVal.num 7)]) "") emptyCache).2.1).entries, 10⟩,
         0) :=
  c10_prefix_collision cfgFull "tttttttttttttttttttt" "ttttttttttttttttttttX"
    (HttpOutcome.response 200 (some [("p", JVal.num 7)]) "") HttpOutcome.timeout
    emptyCache 10 [("p", JVal.num 7)]
    (by decide) (by decide) rfl rfl (List.cons_ne_nil _ _) (by decide)

/-- C3 counterexample: a 304 response is a non-2xx status, yet
`_make_request` SUCCEEDS on it, because the code tests `response.ok`
(status outside 400..599), not 2xx; and a PRESENT but falsy `error` field
("") is used as the failure message as-is — `dict.get` falls back to
"HTTP <status>" only when the field is absent, not when it is falsy. -/
theorem c3_counterexample :
    make_request cfgFull "GET" "/auth/me" none none
        (HttpOutcome.response 304 (some [("a", JVal.num 1)]) "")
      = Except.ok [("a", JVal.num 1)]
    ∧ make_request cfgFull "GET" "/auth/me" none none
        (HttpOutcome.response 401 (some [("error", JVal.str "")]) "")
      = Except.error ⟨JVal.str "", some 401, some [("error", JVal.str "")]⟩ :=
  ⟨rfl, rfl⟩

/-- C3 (amended): with the base URL configured, a response whose status
lies outside 400..599 makes `_make_request` succeed with the parsed body
as-is; a status in 400..599 makes it fail with message equal to the
body's `error` field when that field is PRESENT (falsy or not), else
"HTTP <status>", carrying the status code and the parsed body; and a 401
with body containing error "invalid credentials" makes the calling
operation return success false with that error string. -/
theorem c3_status_classification (cfg : Config) (method endpoint : String)
    (data : Option PBody) (tok : Option String) (status : Nat)
    (body : Option PBody) (text : String)
    (hb : truthyOptStr cfg.base_url = true) :
    (¬(400 ≤ status ∧ status < 600) →
      make_request cfg method endpoint data tok (HttpOutcome.response status body text)
        = Except.ok (parse_body body text))
    ∧ ((400 ≤ status ∧ status < 600) →
      make_request cfg method endpoint data tok (HttpOutcome.response status body text)
        = Except.error ⟨pyGetD (parse_body body text) "error"
                          (JVal.str ("HTTP " ++ toString status)),
                        some status, some (parse_body body text)⟩)
    ∧ (authenticate_student cfgFull "a@b.com" "pw"
        (HttpOutcome.response 401 (some [("error", JVal.str "invalid credentials")]) "")).1
      = Except.ok [("success", JVal.bool false),
                   ("error", JVal.str "invalid credentials")] := by
  refine ⟨?_, ?_, rfl⟩
  · intro h
    have hok : respOk status = true := by
      simp [respOk]
      omega
    simp [make_request, hb, hok]
  · intro h
    have hok : respOk status = false := by
      simp [respOk]
      omega
    simp [make_request, hb, hok]

/-- C3 witness: a 200 succeeds with the body as-is, and a 404 with an
empty body fails with the default "HTTP 404" message. -/
theorem c3_witness :
    make_request cfgFull "GET" "/auth/me" none none
        (HttpOutcome.response 200 (some [("a", JVal.num 1)]) "")
      = Except.ok [("a", JVal.num 1)]
    ∧ make_request cfgFull "GET" "/auth/me" none none
        (HttpOutcome.response 404 (some []) "")
      = Except.error ⟨JVal.str "HTTP 404", some 404, some []⟩ := by
  constructor
  · exact (c3_status_classification cfgFull "GET" "/auth/me" none none 200
      (some [("a", JVal.num 1)]) "" rfl).1 (by decide)
  · exact (c3_status_classification cfgFull "GET" "/auth/me" none none 404
      (some []) "" rfl).2.1 (by decide)

theorem head?_dropWhile_char (p : Char → Bool) (l : List Char) (c : Char)
    (h : (l.dropWhile p).head? = some c) : p c = false := by
  induction l with
  | nil => simp [List.dropWhile] at h
  | cons a t ih =>
    rw [List.dropWhile_cons] at h
    by_cases hpa : p a = true
    · rw [if_pos hpa] at h
      exact ih h
    · rw [if_neg hpa] at h
      simp only [List.head?_cons, Option.some.injEq] at h
      subst h
      exact Bool.not_eq_true _ ▸ hpa

/-- C4 (confirmed): the URL built on line 87 is always the base with all
trailing slashes removed, one literal slash, and the endpoint with all
leading slashes removed — so exactly one slash stands at the joint, no
matter how many slashes either input carries, and adding a slash to
either side of the joint changes nothing. -/
theorem c4_url_single_slash (base ep : String) :
    (make_url base ep).data = rstripSlash base.data ++ '/' :: lstripSlash ep.data
    ∧ (∀ c, (rstripSlash base.data).getLast? = some c → c ≠ '/')
    ∧ (∀ c, (lstripSlash ep.data).head? = some c → c ≠ '/')
    ∧ make_url (base ++ "/") ep = make_url base ep
    ∧ make_url base ("/" ++ ep) = make_url base ep
    ∧ make_url "https://api.example.com/" "/auth/me" = "https://api.example.com/auth/me" := by
  refine ⟨rfl, ?_, ?_, ?_, ?_, rfl⟩
  · intro c h
    unfold rstripSlash at h
    rw [List.getLast?_reverse] at h
    have := head?_dropWhile_char _ _ _ h
    exact beq_eq_false_iff_ne.mp this
  · intro c h
    unfold lstripSlash at h
    have := head?_dropWhile_char _ _ _ h
    exact beq_eq_false_iff_ne.mp this
  · unfold make_url rstripSlash
    rw [String.data_append]
    simp [List.dropWhile_cons]
  · unfold make_url lstripSlash
    rw [String.data_append]
    simp [List.dropWhile_cons]

set_option maxRecDepth 4000 in
/-- C4 witness: the spec's own example joins to a single slash, and the
characters flanking the joint are not slashes. -/
theorem c4_witness :
    make_url "https://api.example.com/" "/auth/me" = "https://api.example.com/auth/me"
    ∧ ('m' : Char) ≠ '/'
    ∧ ('a' : Char) ≠ '/' := by
  refine ⟨(c4_url_single_slash "https://api.example.com/" "/auth/me").2.2.2.2.2, ?_, ?_⟩
  · exact (c4_url_single_slash "https://api.example.com/" "/auth/me").2.1 'm' (by decide)
  · exact (c4_url_single_slash "https://api.example.com/" "/auth/me").2.2.1 'a' (by decide)

/-- C5 (confirmed): with the API key configured, a successful transport
call makes `authenticate_student` return success true with the response's
`student`, `token`, and `expires_in` taken from `expiresIn`, the latter
defaulting to "24h" exactly when the response lacks the `expiresIn`
field. -/
theorem c5_authenticate_success_shape (cfg : Config) (email password : String)
    (o : HttpOutcome) (r : PBody)
    (hk : truthyOptStr cfg.api_key = true)
    (hr : make_request cfg "POST" "/auth/external-login"
        (some [("email", JVal.str email), ("password", JVal.str password),
               ("app_key", JVal.str (cfg.api_key.getD ""))]) none o = Except.ok r) :
    (authenticate_student cfg email password o).1
      = Except.ok [("success", JVal.bool true),
                   ("student", pyGet r "student"),
                   ("token", pyGet r "token"),
                   ("expires_in", pyGetD r "expiresIn" (JVal.str "24h"))]
    ∧ (List.lookup "expiresIn" r = none →
        pyGetD r "expiresIn" (JVal.str "24h") = JVal.str "24h") := by
  constructor
  · simp [authenticate_student, hk, hr]
  · intro h
    unfold pyGetD
    rw [h]
    rfl

/-- C5 witness: a 200 with body containing only a token yields success
true, a null student, that token, and the default "24h". -/
theorem c5_witness :
    (authenticate_student cfgFull "a@b.com" "pw"
        (HttpOutcome.response 200 (some [("token", JVal.str "abc")]) "")).1
      = Except.ok [("success", JVal.bool true),
                   ("student", JVal.null),
                   ("token", JVal.str "abc"),
                   ("expires_in", JVal.str "24h")] := by
  have h := c5_authenticate_success_shape cfgFull "a@b.com" "pw"
    (HttpOutcome.response 200 (some [("token", JVal.str "abc")]) "")
    [("token", JVal.str "abc")] rfl rfl
  exact h.1

/-- C6 (confirmed): for every email, password, base URL, timeout and
transport behaviour, `authenticate_student` with no API key configured
returns success false with error "API key not configured" and never
invokes the transport step (zero `_make_request` calls). -/
theorem c6_no_api_key (base : Option String) (tmo : Nat) (email password : String)
    (o : HttpOutcome) :
    authenticate_student ⟨base, none, tmo⟩ email password o
      = (Except.ok [("success", JVal.bool false),
                    ("error", JVal.str "API key not configured")], 0) := rfl

/-- C7 (confirmed): when the fetch fails, `get_student_profile` returns
success false with the failure message and leaves the cache unchanged;
and whenever the transport call does not succeed the cache is left
unchanged — the cache is written only on a successful fetch. -/
theorem c7_profile_failure_no_cache :
    (∀ (cfg : Config) (token : String) (o : HttpOutcome) (st : CacheState) (e : ApiError),
      profile_cache_hit st ("student_profile_" ++ token.take 20) = none →
      make_request cfg "GET" "/students/me/profile" none (some token) o = Except.error e →
      get_student_profile cfg token o st
        = (Except.ok [("success", JVal.bool false), ("error", e.message)], st, 1))
    ∧ (∀ (cfg : Config) (token : String) (o : HttpOutcome) (st : CacheState),
      (make_request cfg "GET" "/students/me/profile" none (some token) o).isOk = false →
      (get_student_profile cfg token o st).2.1 = st) := by
  constructor
  · intro cfg token o st e h0 he
    unfold get_student_profile
    rw [h0]
    unfold profile_fetch
    rw [he]
  · intro cfg token o st hmr
    unfold get_student_profile
    cases hh : profile_cache_hit st ("student_profile_" ++ token.take 20) with
    | some b => rfl
    | none =>
      unfold profile_fetch
      cases hr : make_request cfg "GET" "/students/me/profile" none (some token) o with
      | ok r =>
        rw [hr] at hmr
        simp [Except.isOk, Except.toBool] at hmr
      | error e => rfl

/-- C7 witness: a concrete timeout yields the error dictionary with the
cache untouched, and a concrete missing-base-URL failure also leaves the
cache untouched. -/
theorem c7_witness :
    get_student_profile cfgFull "tok" HttpOutcome.timeout emptyCache
      = (Except.ok [("success", JVal.bool false),
                    ("error", JVal.str "Request timeout - API server not responding")],
         emptyCache, 1)
    ∧ (get_student_profile cfgNoBase "tok"
        (HttpOutcome.response 200 (some []) "") emptyCache).2.1 = emptyCache := by
  constructor
  · exact c7_profile_failure_no_cache.1 cfgFull "tok" HttpOutcome.timeout emptyCache
      ⟨JVal.str "Request timeout - API server not responding", none, none⟩ rfl rfl
  · exact c7_profile_failure_no_cache.2 cfgNoBase "tok"
      (HttpOutcome.response 200 (some []) "") emptyCache rfl

/-- C8 (confirmed): `refresh_token` returns `None` on any failure of the
transport call, and on success returns exactly `response.get("token")` —
the response's token value. -/
theorem c8_refresh_token (cfg : Config) (token : String) (o : HttpOutcome) :
    ((make_request cfg "POST" "/auth/refresh" none (some token) o).isOk = false →
      refresh_token cfg token o = Except.ok none)
    ∧ (∀ r, make_request cfg "POST" "/auth/refresh" none (some token) o = Except.ok r →
      refresh_token cfg token o = Except.ok (List.lookup "token" r)) := by
  constructor
  · intro h
    unfold refresh_token
    cases hr : make_request cfg "POST" "/auth/refresh" none (some token) o with
    | ok r =>
      rw [hr] at h
      simp [Except.isOk, Except.toBool] at h
    | error e => rfl
  · intro r hr
    unfold refresh_token
    rw [hr]

/-- C8 witness: a timeout yields `None`; a 200 whose body holds a token
string yields that string. -/
theorem c8_witness :
    refresh_token cfgFull "tok" HttpOutcome.timeout = Except.ok none
    ∧ refresh_token cfgFull "tok"
        (HttpOutcome.response 200 (some [("token", JVal.str "newtok")]) "")
      = Except.ok (some (JVal.str "newtok")) := by
  constructor
  · exact (c8_refresh_token cfgFull "tok" HttpOutcome.timeout).1 rfl
  · exact (c8_refresh_token cfgFull "tok"
      (HttpOutcome.response 200 (some [("token", JVal.str "newtok")]) "")).2
      [("token", JVal.str "newtok")] rfl

/-- C9 (confirmed): every `authenticate_student` result dictionary is
either the success shape — success true, with `student`, `token` and
`expires_in` keys present and no `error` key — or the failure shape —
success false, with an `error` key present and none of the payload
keys. -/
theorem c9_auth_result_shape (cfg : Config) (email password : String) (o : HttpOutcome) :
    ∃ b : PBody, (authenticate_student cfg email password o).1 = Except.ok b
    ∧ ((List.lookup "success" b = some (JVal.bool true)
        ∧ List.lookup "error" b = none
        ∧ (List.lookup "student" b).isSome = true
        ∧ (List.lookup "token" b).isSome = true
        ∧ (List.lookup "expires_in" b).isSome = true)
      ∨ (List.lookup "success" b = some (JVal.bool false)
        ∧ (List.lookup "error" b).isSome = true
        ∧ List.lookup "student" b = none
        ∧ List.lookup "token" b = none
        ∧ List.lookup "expires_in" b = none)) := by
  unfold authenticate_student
  by_cases hk : truthyOptStr cfg.api_key = false
  · rw [if_pos hk]
    exact ⟨_, rfl, Or.inr ⟨rfl, rfl, rfl, rfl, rfl⟩⟩
  · rw [if_neg hk]
    cases make_request cfg "POST" "/auth/external-login"
        (some [("email", JVal.str email), ("password", JVal.str password),
               ("app_key", JVal.str (cfg.api_key.getD ""))]) none o with
    | ok r => exact ⟨_, rfl, Or.inl ⟨rfl, rfl, rfl, rfl, rfl⟩⟩
    | error e => exact ⟨_, rfl, Or.inr ⟨rfl, rfl, rfl, rfl, rfl⟩⟩
